import Mathlib

/-!
# Verification of the Buffering + Queueing + Caching subsystem

Shallow embedding of the core components of the AutoAdsPro repository:
the two durable job queues (message jobs and report jobs), the rate
limiter's backoff computation, the group-metadata two-tier cache, the
message buffer with adaptive debounce, and the ephemeral-ads tracker.

Timestamps are modelled as integers (milliseconds).  Database tables are
modelled as ordered lists of rows in insertion order; `update ... where id`
is a map over the list, `delete ... where p` is a filter, and
`select ... limit 1` takes the first matching row.
-/

/-! ## Job status (shared by both queue variants) -/

inductive QStatus where
  | pending
  | processing
  | completed
  | failed
deriving DecidableEq, Repr

/-- A status is non-terminal when it is pending or processing. -/
def QStatus.nonTerminal : QStatus → Bool
  | .pending => true
  | .processing => true
  | _ => false

/-! ## Message queue (src/unnamed/part_005, MessageQueueService)

Rows of the `messageQueue` table. `messageData` is the ordered list of
buffered message texts; `priority` is the numeric priority stored in the
row (0 for owner, 2 for normal). -/

structure MsgJob where
  id : Nat
  jid : String
  messageData : List String
  priority : Nat
  status : QStatus
  retryCount : Nat
  errorMessage : Option String
  createdAt : Int
  processedAt : Option Int
deriving DecidableEq, Repr

inductive QueuePriority where
  | owner
  | normal
deriving DecidableEq, Repr

/-- `priority === 'owner' ? 0 : 2` -/
def priorityNum : QueuePriority → Nat
  | .owner => 0
  | .normal => 2

/-- The `select ... where jid = key and (status = pending or status =
processing)` followed by `rows[0]`: first row in table order whose jid
matches and whose status is non-terminal. -/
def findNonTerminal : List MsgJob → String → Option MsgJob
  | [], _ => none
  | r :: rest, key =>
      if r.jid = key ∧ r.status.nonTerminal = true then some r
      else findNonTerminal rest key

namespace MessageQueueService

def MAX_RETRIES : Nat := 3

/-- `MessageQueueService.enqueue`: if a non-terminal row for the contact
exists, update only its `messageData` to the concatenation; otherwise
insert a fresh pending row (`newId` models the serial id the database
assigns). -/
def enqueue (q : List MsgJob) (contactPhone : String) (messages : List String)
    (priority : QueuePriority) (newId : Nat) (now : Int) : List MsgJob :=
  match findNonTerminal q contactPhone with
  | some existing =>
      q.map (fun r =>
        if r.id = existing.id then
          { r with messageData := r.messageData ++ messages }
        else r)
  | none =>
      q ++ [{ id := newId
              jid := contactPhone
              messageData := messages
              priority := priorityNum priority
              status := .pending
              retryCount := 0
              errorMessage := none
              createdAt := now
              processedAt := none }]

/-- Outcome of the unit of work attempted for a dequeued job (the AI
generation call together with the contact lookup).  `rateLimit` models a
thrown error with `code === 429` or message `ALL_KEYS_EXHAUSTED`. -/
inductive WorkOutcome where
  | success
  | rateLimit
  | failure (msg : String)
deriving DecidableEq, Repr

/-- `orderBy(priority, createdAt) limit 1` over the pending rows: the
first pending row minimal in the lexicographic (priority, createdAt)
order, earlier rows winning ties. -/
def selectNextPending (q : List MsgJob) : Option MsgJob :=
  (q.filter (fun r => decide (r.status = QStatus.pending))).foldl
    (fun best r =>
      match best with
      | none => some r
      | some b =>
          if r.priority < b.priority ∨
             (r.priority = b.priority ∧ r.createdAt < b.createdAt) then some r
          else some b)
    none

/-- The net effect of one `processQueue` tick on the selected row, given
the outcome of its unit of work.  The row is first marked processing,
then updated from the `pending` snapshot:
success sets completed and `processedAt`; a rate-limit error sets only
`status := pending`; any other error increments the retry count, and once
the incremented count reaches `MAX_RETRIES` the row is marked failed with
the error text stored (the terminal update does not write the incremented
count back). -/
def applyOutcome (sel : MsgJob) (outcome : WorkOutcome) (now : Int) : MsgJob :=
  match outcome with
  | .success => { sel with status := .completed, processedAt := some now }
  | .rateLimit => { sel with status := .pending }
  | .failure msg =>
      let newRetryCount := sel.retryCount + 1
      if MAX_RETRIES ≤ newRetryCount then
        { sel with status := .failed, errorMessage := some msg }
      else
        { sel with status := .pending
                   retryCount := newRetryCount
                   errorMessage := some msg }

/-- One `processQueue` tick: a no-op when no credential is available or no
pending row exists; otherwise the selected row is rewritten by
`applyOutcome`.  The boolean records whether the unit of work was
attempted this tick. -/
def processQueue (q : List MsgJob) (hasAvailableKey : Bool)
    (outcome : WorkOutcome) (now : Int) : List MsgJob × Bool :=
  if hasAvailableKey = false then (q, false)
  else
    match selectNextPending q with
    | none => (q, false)
    | some sel =>
        (q.map (fun r => if r.id = sel.id then applyOutcome sel outcome now else r),
         true)

/-- `cleanup`: delete rows with `status = completed` and
`processedAt < now - 24h` (a row with NULL `processedAt` never matches the
SQL comparison). -/
def cleanup (q : List MsgJob) (now : Int) : List MsgJob :=
  q.filter (fun r =>
    ! (decide (r.status = QStatus.completed) &&
       match r.processedAt with
       | some t => decide (t < now - 24 * 60 * 60 * 1000)
       | none => false))

end MessageQueueService

/-! ## Report queue (src/src/services/googleImageGeneration.ts,
ReportQueueService) -/

structure ReportJob where
  id : Nat
  contactPhone : String
  contactName : String
  conversationId : Nat
  status : QStatus
  lastMessageTime : Int
  retryCount : Nat
  error : Option String
  createdAt : Int
  updatedAt : Option Int
  lastAttempt : Option Int
deriving DecidableEq, Repr

namespace ReportQueueService

def MAX_RETRIES : Nat := 3

/-- `ReportQueueService.enqueue`: unconditionally inserts a fresh pending
row; there is no lookup of an existing non-terminal row for the contact. -/
def enqueue (q : List ReportJob) (contactPhone : String) (conversationId : Nat)
    (contactName : String) (lastMessageTime : Int) (newId : Nat) (now : Int) :
    List ReportJob :=
  q ++ [{ id := newId
          contactPhone := contactPhone
          contactName := contactName
          conversationId := conversationId
          status := .pending
          lastMessageTime := lastMessageTime
          retryCount := 0
          error := none
          createdAt := now
          updatedAt := none
          lastAttempt := none }]

/-- `orderBy(createdAt) limit 1` over pending rows. -/
def selectNextPending (q : List ReportJob) : Option ReportJob :=
  (q.filter (fun r => decide (r.status = QStatus.pending))).foldl
    (fun best r =>
      match best with
      | none => some r
      | some b => if r.createdAt < b.createdAt then some r else some b)
    none

/-- Net effect of one `processReports` tick on the selected row.  The row
is marked processing with `lastAttempt := now`, then updated from the
`pending` snapshot exactly as in the message queue (with the report
queue's `error`/`updatedAt` columns). -/
def applyOutcome (sel : ReportJob) (outcome : MessageQueueService.WorkOutcome)
    (now : Int) : ReportJob :=
  let marked := { sel with lastAttempt := some now }
  match outcome with
  | .success => { marked with status := .completed, updatedAt := some now }
  | .rateLimit => { marked with status := .pending }
  | .failure msg =>
      let newRetryCount := sel.retryCount + 1
      if MAX_RETRIES ≤ newRetryCount then
        { marked with status := .failed, error := some msg }
      else
        { marked with status := .pending
                      retryCount := newRetryCount
                      error := some msg }

/-- One `processReports` tick. -/
def processReports (q : List ReportJob) (hasAvailableKey : Bool)
    (outcome : MessageQueueService.WorkOutcome) (now : Int) :
    List ReportJob × Bool :=
  if hasAvailableKey = false then (q, false)
  else
    match selectNextPending q with
    | none => (q, false)
    | some sel =>
        (q.map (fun r => if r.id = sel.id then applyOutcome sel outcome now else r),
         true)

/-- `cleanup`: the source deletes rows with `status = completed`; the
seven-day age condition is computed but commented out of the WHERE
clause, so every completed row is deleted regardless of age. -/
def cleanup (q : List ReportJob) (_now : Int) : List ReportJob :=
  q.filter (fun r => ! decide (r.status = QStatus.completed))

end ReportQueueService

/-! ## RateLimiter backoff (src/unnamed/part_000, RateLimiter)

The arithmetic of `calculateBackoffDelay` over the rationals.  `rand`
models the `Math.random()` sample, a value in [0, 1). -/

structure RateLimiterConfig where
  initialDelayMs : ℚ
  maxDelayMs : ℚ
  backoffMultiplier : ℚ
  jitterFactor : ℚ
deriving DecidableEq, Repr

namespace RateLimiter

/-- `min(initialDelayMs * backoffMultiplier ^ attempt, maxDelayMs)`. -/
def exponentialDelay (c : RateLimiterConfig) (attempt : ℕ) : ℚ :=
  min (c.initialDelayMs * c.backoffMultiplier ^ attempt) c.maxDelayMs

/-- `calculateBackoffDelay`: the capped exponential delay, plus a jitter
of `exponentialDelay * jitterFactor * (rand * 2 - 1)`, floored at
`initialDelayMs` via `Math.max`. -/
def calculateBackoffDelay (c : RateLimiterConfig) (attempt : ℕ) (rand : ℚ) : ℚ :=
  let expDelay := exponentialDelay c attempt
  let jitter := expDelay * c.jitterFactor * (rand * 2 - 1)
  max (expDelay + jitter) c.initialDelayMs

/-- The constructor defaults of the `RateLimiter` class. -/
def defaultConfig : RateLimiterConfig :=
  { initialDelayMs := 1000
    maxDelayMs := 60000
    backoffMultiplier := 2
    jitterFactor := 1/10 }

end RateLimiter

/-! ## Group metadata cache (src/unnamed/part_005, GroupMetadataCache)

The durable tier is abstracted as an environment recording what each
database call would have returned or raised on this invocation; every
embedded operation also returns the number of durable-tier calls it
actually performed, so that "does not attempt the durable tier" is the
statement that this count is zero. -/

structure CachedGroupMetadata where
  jid : String
  subject : String
  description : Option String
  totalMembers : Nat
  adminsCount : Nat
  updatedAt : Int
  cached : Bool
deriving DecidableEq, Repr

structure CacheEntry where
  data : CachedGroupMetadata
  timestamp : Int
deriving DecidableEq, Repr

/-- Outcome of the cheap existence probe (`db.query.groups.findFirst`)
run by `ensureTablesExist`.  `errMissing` is an error whose message
matches `does not exist` / `42P01`; `errOther` is any other raised
error. -/
inductive ProbeResult where
  | ok
  | errMissing
  | errOther
deriving DecidableEq, Repr

/-- Outcome of the keyed select in `getOrNull`. -/
inductive QueryResult where
  | found (updatedAt : Int) (row : CachedGroupMetadata)
  | notFound
  | errMissing
  | errOther
deriving DecidableEq, Repr

/-- Outcome of the insert attempted by `setFromApi` (`errDuplicate` is a
unique-key conflict, answered by a fallback update). -/
inductive InsertResult where
  | ok
  | errDuplicate
  | errMissing
  | errOther
deriving DecidableEq, Repr

/-- What the durable tier would answer on this call. -/
structure DbEnv where
  probe : ProbeResult
  query : QueryResult
  insert : InsertResult
deriving DecidableEq, Repr

structure CacheState where
  tablesInitialized : Bool
  dbAvailable : Bool
  mem : List (String × CacheEntry)
  dbCacheTtlMs : Int
deriving DecidableEq, Repr

namespace GroupMetadataCache

def CACHE_TTL_MS : Int := 60 * 60 * 1000

/-- Association-list lookup for the in-memory `Map`. -/
def lookupKey : List (String × CacheEntry) → String → Option CacheEntry
  | [], _ => none
  | (k, v) :: rest, key => if k = key then some v else lookupKey rest key

/-- Association-list insert-or-replace for the in-memory `Map`. -/
def insertKey : List (String × CacheEntry) → String → CacheEntry →
    List (String × CacheEntry)
  | [], key, v => [(key, v)]
  | (k, w) :: rest, key, v =>
      if k = key then (k, v) :: rest else (k, w) :: insertKey rest key v

/-- `ensureTablesExist`: a no-op once `tablesInitialized`; otherwise runs
the probe (one durable-tier call) and records availability — any probe
error, relation-missing or otherwise, leaves `dbAvailable = false`. -/
def ensureTablesExist (st : CacheState) (probe : ProbeResult) :
    CacheState × Nat :=
  if st.tablesInitialized then (st, 0)
  else
    match probe with
    | .ok => ({ st with tablesInitialized := true, dbAvailable := true }, 1)
    | .errMissing => ({ st with tablesInitialized := true, dbAvailable := false }, 1)
    | .errOther => ({ st with tablesInitialized := true, dbAvailable := false }, 1)

/-- The durable-tier leg of `getOrNull` (everything after the in-memory
check).  Skipped entirely when `dbAvailable` is false. -/
def getOrNullDb (st : CacheState) (env : DbEnv) (now : Int) (jid : String) :
    Option CachedGroupMetadata × CacheState × Nat :=
  if st.dbAvailable then
    let probed := ensureTablesExist st env.probe
    let st1 := probed.1
    if st1.dbAvailable then
      match env.query with
      | .found updatedAt row =>
          if now - updatedAt < st1.dbCacheTtlMs then
            let result := { row with updatedAt := updatedAt, cached := true }
            (some result,
             { st1 with mem := insertKey st1.mem jid ⟨result, now⟩ },
             probed.2 + 1)
          else (none, st1, probed.2 + 1)
      | .notFound => (none, st1, probed.2 + 1)
      | .errMissing => (none, { st1 with dbAvailable := false }, probed.2 + 1)
      | .errOther => (none, st1, probed.2 + 1)
    else (none, st1, probed.2)
  else (none, st, 0)

/-- `getOrNull`: level 1 is the in-memory map under `CACHE_TTL_MS`;
level 2 is the durable tier; level 3 is `null` (caller fetches). -/
def getOrNull (st : CacheState) (env : DbEnv) (now : Int) (jid : String) :
    Option CachedGroupMetadata × CacheState × Nat :=
  match lookupKey st.mem jid with
  | some e =>
      if now - e.timestamp < CACHE_TTL_MS then (some e.data, st, 0)
      else getOrNullDb st env now jid
  | none => getOrNullDb st env now jid

/-- The fields `setFromApi` builds its result from (the shape of the
transport's group-metadata answer). -/
structure ApiMetadata where
  subject : String
  desc : Option String
  totalMembers : Nat
  adminsCount : Nat
deriving DecidableEq, Repr

/-- `setFromApi`: always writes through to the in-memory map, then
best-effort persists to the durable tier (insert, falling back to an
update on a duplicate-key conflict); a relation-missing error flips
`dbAvailable` off, any other durable error is swallowed. -/
def setFromApi (st : CacheState) (env : DbEnv) (now : Int) (jid : String)
    (metadata : ApiMetadata) : CachedGroupMetadata × CacheState × Nat :=
  let result : CachedGroupMetadata :=
    { jid := jid
      subject := metadata.subject
      description := metadata.desc
      totalMembers := metadata.totalMembers
      adminsCount := metadata.adminsCount
      updatedAt := now
      cached := false }
  let st1 := { st with mem := insertKey st.mem jid ⟨result, now⟩ }
  if st1.dbAvailable then
    let probed := ensureTablesExist st1 env.probe
    let st2 := probed.1
    if st2.dbAvailable then
      match env.insert with
      | .ok => (result, st2, probed.2 + 1)
      | .errDuplicate => (result, st2, probed.2 + 2)
      | .errMissing => (result, { st2 with dbAvailable := false }, probed.2 + 1)
      | .errOther => (result, st2, probed.2 + 1)
    else (result, st2, probed.2)
  else (result, st1, 0)

/-- The pure in-memory answer of `getOrNull` (the level-1 check). -/
def memFresh (st : CacheState) (now : Int) (jid : String) :
    Option CachedGroupMetadata :=
  match lookupKey st.mem jid with
  | some e => if now - e.timestamp < CACHE_TTL_MS then some e.data else none
  | none => none

end GroupMetadataCache

/-! ## Message buffer (src/src/services/messageBuffer.ts, MessageBuffer)

`buffers` is the per-key accumulator map, `timers` holds the armed
timers as (key, timer id, debounce duration) — `clearTimeout` removes an
entry, and a timer whose id is no longer armed fires as a no-op (a
cancelled JS timeout never runs its callback).  `emitted` is the ordered
trace of `processBatchCallback` invocations. -/

namespace MessageBuffer

def BASE_DEBOUNCE_MS : Nat := 10000
def MAX_DEBOUNCE_MS : Nat := 30000

/-- `getAdaptiveDebounce`, as a function of `this.buffers.size`. -/
def getAdaptiveDebounce (activeConversations : Nat) : Nat :=
  if activeConversations = 1 then BASE_DEBOUNCE_MS
  else if activeConversations ≤ 3 then 15000
  else if activeConversations ≤ 10 then 20000
  else MAX_DEBOUNCE_MS

structure BufferState where
  buffers : List (String × List String)
  timers : List (String × Nat × Nat)
  nextTimerId : Nat
  emitted : List (String × List String)
deriving DecidableEq, Repr

def emptyState : BufferState :=
  { buffers := [], timers := [], nextTimerId := 0, emitted := [] }

/-- Steps 1–2 of `add`: create the accumulator if missing, then push. -/
def pushText : List (String × List String) → String → String →
    List (String × List String)
  | [], jid, text => [(jid, [text])]
  | (k, msgs) :: rest, jid, text =>
      if k = jid then (k, msgs ++ [text]) :: rest
      else (k, msgs) :: pushText rest jid text

def lookupBuffer : List (String × List String) → String → Option (List String)
  | [], _ => none
  | (k, msgs) :: rest, jid => if k = jid then some msgs else lookupBuffer rest jid

def removeBuffer : List (String × List String) → String →
    List (String × List String)
  | [], _ => []
  | (k, msgs) :: rest, jid =>
      if k = jid then rest else (k, msgs) :: removeBuffer rest jid

/-- `clearTimeout` + `timers.delete`: drop any armed timer for the key. -/
def removeTimer : List (String × Nat × Nat) → String → List (String × Nat × Nat)
  | [], _ => []
  | (k, i, d) :: rest, jid =>
      if k = jid then removeTimer rest jid else (k, i, d) :: removeTimer rest jid

/-- Is the timer with this id still armed for this key? -/
def timerArmed : List (String × Nat × Nat) → String → Nat → Bool
  | [], _, _ => false
  | (k, i, _) :: rest, jid, id =>
      if k = jid ∧ i = id then true else timerArmed rest jid id

/-- `add(jid, text)`: push onto the accumulator, cancel any armed timer
for the key, compute the adaptive debounce from the post-push number of
active accumulators, and arm a fresh timer. -/
def add (s : BufferState) (jid : String) (text : String) : BufferState :=
  let buffers1 := pushText s.buffers jid text
  let timers1 := removeTimer s.timers jid
  let debounceTime := getAdaptiveDebounce buffers1.length
  { buffers := buffers1
    timers := timers1 ++ [(jid, s.nextTimerId, debounceTime)]
    nextTimerId := s.nextTimerId + 1
    emitted := s.emitted }

/-- `flush(jid)`: cancel the timer, and when a non-empty accumulator
exists, clear it before invoking the callback (recorded in `emitted`). -/
def flush (s : BufferState) (jid : String) : BufferState :=
  let timers1 := removeTimer s.timers jid
  match lookupBuffer s.buffers jid with
  | none => { s with timers := timers1 }
  | some [] => { s with timers := timers1 }
  | some msgs =>
      { buffers := removeBuffer s.buffers jid
        timers := timers1
        nextTimerId := s.nextTimerId
        emitted := s.emitted ++ [(jid, msgs)] }

/-- Expiry of the timeout with the given id: runs `flush` only if that
timer is still armed (a cleared timeout never fires). -/
def fireTimer (s : BufferState) (jid : String) (id : Nat) : BufferState :=
  if timerArmed s.timers jid id then flush s jid else s

end MessageBuffer

/-! ## Ephemeral ads tracker
(src/src/services/marketing/ephemeralAdsService.ts, EphemeralAdsService)

The transport is abstracted as a predicate saying whether
`client.deleteMessage` would succeed for a record; `runCleanup` also
returns the ordered list of records it invoked the delete on. -/

structure EphemeralAd where
  id : String
  jid : String
  messageKey : String
  sentAt : Int
  ttlMinutes : Int
deriving DecidableEq, Repr

namespace EphemeralAdsService

/-- `now >= ad.sentAt + ad.ttlMinutes * 60 * 1000`. -/
def expired (now : Int) (ad : EphemeralAd) : Bool :=
  decide (ad.sentAt + ad.ttlMinutes * 60 * 1000 ≤ now)

/-- The `for (const ad of this.ads)` loop of `runCleanup`: an expired
record gets one `deleteMessage` call and is dropped whether or not that
call throws; an unexpired record is kept. -/
def cleanupLoop (now : Int) (_deleteOk : EphemeralAd → Bool) :
    List EphemeralAd → List EphemeralAd × List EphemeralAd
  | [] => ([], [])
  | ad :: rest =>
      let r := cleanupLoop now _deleteOk rest
      if expired now ad then (r.1, ad :: r.2)
      else (ad :: r.1, r.2)

/-- `runCleanup`: a no-op without a client; otherwise the loop above.
Returns (remaining persisted list, delete invocations in order). -/
def runCleanup (now : Int) (client : Option (EphemeralAd → Bool))
    (ads : List EphemeralAd) : List EphemeralAd × List EphemeralAd :=
  match client with
  | none => (ads, [])
  | some deleteOk => cleanupLoop now deleteOk ads

end EphemeralAdsService

/-! ## Theorems -/

/-- `findNonTerminal` returns a member of the table whose jid matches the
key and whose status is non-terminal. -/
theorem findNonTerminal_spec (q : List MsgJob) (key : String) (j : MsgJob)
    (h : findNonTerminal q key = some j) :
    j ∈ q ∧ j.jid = key ∧ j.status.nonTerminal = true := by
  induction q with
  | nil => simp [findNonTerminal] at h
  | cons r rest ih =>
      rw [findNonTerminal] at h
      by_cases hc : r.jid = key ∧ r.status.nonTerminal = true
      · rw [if_pos hc] at h
        cases h
        exact ⟨List.mem_cons_self _ _, hc.1, hc.2⟩
      · rw [if_neg hc] at h
        obtain ⟨h1, h2, h3⟩ := ih h
        exact ⟨List.mem_cons_of_mem r h1, h2, h3⟩

/-- C1 (counterexample): the report queue's `enqueue` does not merge.
Two enqueues for the same contact phone while the first job is still
pending leave two rows, both non-terminal for that identity key, so the
claimed invariant fails for the report-job variant. -/
theorem C1_report_enqueue_duplicates :
    (ReportQueueService.enqueue
        (ReportQueueService.enqueue [] "p" 7 "n" 0 1 0) "p" 7 "n" 0 2 5).length = 2 ∧
    ((ReportQueueService.enqueue
        (ReportQueueService.enqueue [] "p" 7 "n" 0 1 0) "p" 7 "n" 0 2 5).filter
      (fun r => decide (r.contactPhone = "p") && r.status.nonTerminal)).length = 2 := by
  decide

/-- C1 (amended): only the message-job queue maintains the
merge-not-duplicate invariant — its `enqueue` against an existing
non-terminal job for the identity key keeps the row count unchanged and
leaves a non-terminal row for that key holding the concatenation of the
old and new payloads — while the report-job queue's `enqueue` always
grows the table by one row. -/
theorem C1_merge_not_duplicate_amended (q : List MsgJob) (key : String)
    (msgs : List String) (prio : QueuePriority) (newId : Nat) (now : Int)
    (j : MsgJob) (hfind : findNonTerminal q key = some j) :
    (MessageQueueService.enqueue q key msgs prio newId now).length = q.length ∧
    (∃ j' ∈ MessageQueueService.enqueue q key msgs prio newId now,
        j'.jid = key ∧ j'.status.nonTerminal = true ∧
        j'.messageData = j.messageData ++ msgs) ∧
    (∀ (rq : List ReportJob) (cp cn : String) (cid : Nat) (lmt : Int)
        (rid : Nat) (rnow : Int),
        (ReportQueueService.enqueue rq cp cid cn lmt rid rnow).length =
          rq.length + 1) := by
  obtain ⟨hmem, hjid, hnt⟩ := findNonTerminal_spec q key j hfind
  refine ⟨?_, ?_, ?_⟩
  · simp [MessageQueueService.enqueue, hfind]
  · have hfj : (fun r => if r.id = j.id then
        { r with messageData := r.messageData ++ msgs } else r) j
        = { j with messageData := j.messageData ++ msgs } := by simp
    refine ⟨{ j with messageData := j.messageData ++ msgs }, ?_, hjid, hnt, rfl⟩
    simp only [MessageQueueService.enqueue, hfind]
    exact hfj ▸ List.mem_map_of_mem _ hmem
  · intro rq cp cn cid lmt rid rnow
    simp [ReportQueueService.enqueue]

/-- C1 (witness): the amended theorem applied to a one-row table holding
a pending job for the key. -/
theorem C1_merge_not_duplicate_witness :
    (MessageQueueService.enqueue
        [⟨1, "k", ["a"], 2, .pending, 0, none, 0, none⟩] "k" ["b"] .owner 2 9).length = 1 ∧
    (∃ j' ∈ MessageQueueService.enqueue
        [⟨1, "k", ["a"], 2, .pending, 0, none, 0, none⟩] "k" ["b"] .owner 2 9,
        j'.jid = "k" ∧ j'.status.nonTerminal = true ∧
        j'.messageData = ["a"] ++ ["b"]) ∧
    (∀ (rq : List ReportJob) (cp cn : String) (cid : Nat) (lmt : Int)
        (rid : Nat) (rnow : Int),
        (ReportQueueService.enqueue rq cp cid cn lmt rid rnow).length =
          rq.length + 1) :=
  C1_merge_not_duplicate_amended
    [⟨1, "k", ["a"], 2, .pending, 0, none, 0, none⟩] "k" ["b"] .owner 2 9
    ⟨1, "k", ["a"], 2, .pending, 0, none, 0, none⟩ (by decide)

/-- C10: when a message-queue `enqueue` merges into an existing
non-terminal job, every row keeps its priority, status, retryCount,
errorMessage, createdAt, id and jid; a row's payload either is untouched
or gains exactly the appended messages.  In particular an owner-priority
enqueue merged into a normal-priority job does not raise its priority. -/
theorem C10_merge_frame (q : List MsgJob) (key : String) (msgs : List String)
    (prio : QueuePriority) (newId : Nat) (now : Int) (j : MsgJob)
    (hfind : findNonTerminal q key = some j) :
    List.Forall₂ (fun (r r' : MsgJob) =>
        r'.id = r.id ∧ r'.jid = r.jid ∧ r'.priority = r.priority ∧
        r'.status = r.status ∧ r'.retryCount = r.retryCount ∧
        r'.errorMessage = r.errorMessage ∧ r'.createdAt = r.createdAt ∧
        r'.processedAt = r.processedAt ∧
        (r'.messageData = r.messageData ∨
         r'.messageData = r.messageData ++ msgs))
      q (MessageQueueService.enqueue q key msgs prio newId now) := by
  simp only [MessageQueueService.enqueue, hfind]
  rw [List.forall₂_map_right_iff]
  rw [List.forall₂_same]
  intro r _
  by_cases h : r.id = j.id <;> simp [h]

/-- C10 (witness): the frame theorem applied to a concrete merge of an
owner-priority enqueue into a normal-priority pending job. -/
theorem C10_merge_frame_witness :
    List.Forall₂ (fun (r r' : MsgJob) =>
        r'.id = r.id ∧ r'.jid = r.jid ∧ r'.priority = r.priority ∧
        r'.status = r.status ∧ r'.retryCount = r.retryCount ∧
        r'.errorMessage = r.errorMessage ∧ r'.createdAt = r.createdAt ∧
        r'.processedAt = r.processedAt ∧
        (r'.messageData = r.messageData ∨
         r'.messageData = r.messageData ++ ["b"]))
      [⟨1, "k", ["a"], 2, .pending, 0, none, 0, none⟩]
      (MessageQueueService.enqueue
        [⟨1, "k", ["a"], 2, .pending, 0, none, 0, none⟩] "k" ["b"] .owner 2 9) :=
  C10_merge_frame
    [⟨1, "k", ["a"], 2, .pending, 0, none, 0, none⟩] "k" ["b"] .owner 2 9
    ⟨1, "k", ["a"], 2, .pending, 0, none, 0, none⟩ (by decide)

/-- C2 (code bug): the report queue's `cleanup` deletes a report
completed at the very moment cleanup runs (age 0, far inside the claimed
7-day window), because the age condition is commented out of its WHERE
clause; the message queue's `cleanup`, by contrast, keeps a job completed
at the same instant and only deletes one older than 24 hours. -/
theorem C2_report_cleanup_ignores_age :
    ReportQueueService.cleanup
      [⟨1, "p", "n", 7, .completed, 0, 0, none, 0, some 1000, some 1000⟩] 1000 = [] ∧
    MessageQueueService.cleanup
      [⟨1, "k", ["a"], 2, .completed, 0, none, 0, some 1000⟩] 1000 =
      [⟨1, "k", ["a"], 2, .completed, 0, none, 0, some 1000⟩] ∧
    MessageQueueService.cleanup
      [⟨1, "k", ["a"], 2, .completed, 0, none, 0, some 0⟩]
      (25 * 60 * 60 * 1000) = [] := by
  decide

/-- C3 (counterexample): a job whose unit of work always throws a
non-rate-limit error reaches `failed` on the third tick with its stored
`retryCount` still 2, not 3 — the terminal update writes the error text
but not the incremented retry count. -/
theorem C3_failed_stored_retry_is_two :
    (MessageQueueService.processQueue
      (MessageQueueService.processQueue
        (MessageQueueService.processQueue
          [⟨1, "k", ["a"], 2, .pending, 0, none, 0, none⟩]
          true (.failure "boom") 1).1
        true (.failure "boom") 2).1
      true (.failure "boom") 3).1 =
      [⟨1, "k", ["a"], 2, .failed, 2, some "boom", 0, none⟩] ∧
    ∀ j ∈ (MessageQueueService.processQueue
      (MessageQueueService.processQueue
        (MessageQueueService.processQueue
          [⟨1, "k", ["a"], 2, .pending, 0, none, 0, none⟩]
          true (.failure "boom") 1).1
        true (.failure "boom") 2).1
      true (.failure "boom") 3).1, j.retryCount ≠ 3 := by
  decide

/-- C3 (amended): across successive worker ticks whose unit of work
always throws a non-rate-limit error, a fresh pending job transitions
pending (retryCount 1) → pending (retryCount 2) → failed, with the error
text stored on every transition; the terminal row keeps retryCount 2
(the increment to 3 is tested but not written back), and a further tick
attempts no work and changes nothing. -/
theorem C3_retry_cap_amended (jid : String) (msgs : List String) (p : Nat)
    (ts : Int) (msg : String) (t1 t2 t3 t4 : Int) :
    MessageQueueService.processQueue
        [⟨0, jid, msgs, p, .pending, 0, none, ts, none⟩] true (.failure msg) t1 =
      ([⟨0, jid, msgs, p, .pending, 1, some msg, ts, none⟩], true) ∧
    MessageQueueService.processQueue
        [⟨0, jid, msgs, p, .pending, 1, some msg, ts, none⟩] true (.failure msg) t2 =
      ([⟨0, jid, msgs, p, .pending, 2, some msg, ts, none⟩], true) ∧
    MessageQueueService.processQueue
        [⟨0, jid, msgs, p, .pending, 2, some msg, ts, none⟩] true (.failure msg) t3 =
      ([⟨0, jid, msgs, p, .failed, 2, some msg, ts, none⟩], true) ∧
    MessageQueueService.processQueue
        [⟨0, jid, msgs, p, .failed, 2, some msg, ts, none⟩] true (.failure msg) t4 =
      ([⟨0, jid, msgs, p, .failed, 2, some msg, ts, none⟩], false) :=
  ⟨rfl, rfl, rfl, rfl⟩

/-- C5: under a unit of work that always throws the rate-limit signal,
a fresh pending job in either queue stays pending with retryCount 0 for
every number of poll ticks, and never reaches `failed`.  The message-job
row is left bit-for-bit unchanged; the report-job row changes only in
`lastAttempt`. -/
theorem C5_rate_limit_resilience (jid : String) (msgs : List String) (p : Nat)
    (ts now : Int) (cp cn : String) (cid : Nat) (lmt ts2 now2 : Int) (n m : Nat) :
    (fun q => (MessageQueueService.processQueue q true .rateLimit now).1)^[n]
        [⟨0, jid, msgs, p, .pending, 0, none, ts, none⟩] =
      [⟨0, jid, msgs, p, .pending, 0, none, ts, none⟩] ∧
    ((fun q => (ReportQueueService.processReports q true .rateLimit now2).1)^[m]
        [⟨0, cp, cn, cid, .pending, lmt, 0, none, ts2, none, none⟩] =
      [⟨0, cp, cn, cid, .pending, lmt, 0, none, ts2, none, none⟩] ∨
     (fun q => (ReportQueueService.processReports q true .rateLimit now2).1)^[m]
        [⟨0, cp, cn, cid, .pending, lmt, 0, none, ts2, none, none⟩] =
      [⟨0, cp, cn, cid, .pending, lmt, 0, none, ts2, none, some now2⟩]) ∧
    (∀ j ∈ (fun q => (MessageQueueService.processQueue q true .rateLimit now).1)^[n]
        [⟨0, jid, msgs, p, .pending, 0, none, ts, none⟩],
      j.status = QStatus.pending ∧ j.retryCount = 0) ∧
    (∀ j ∈ (fun q => (ReportQueueService.processReports q true .rateLimit now2).1)^[m]
        [⟨0, cp, cn, cid, .pending, lmt, 0, none, ts2, none, none⟩],
      j.status = QStatus.pending ∧ j.retryCount = 0) := by
  have hM : (fun q => (MessageQueueService.processQueue q true .rateLimit now).1)^[n]
      [⟨0, jid, msgs, p, .pending, 0, none, ts, none⟩] =
      [⟨0, jid, msgs, p, .pending, 0, none, ts, none⟩] :=
    Function.iterate_fixed rfl n
  have hR : (fun q => (ReportQueueService.processReports q true .rateLimit now2).1)^[m]
      [⟨0, cp, cn, cid, .pending, lmt, 0, none, ts2, none, none⟩] =
      [⟨0, cp, cn, cid, .pending, lmt, 0, none, ts2, none, none⟩] ∨
      (fun q => (ReportQueueService.processReports q true .rateLimit now2).1)^[m]
      [⟨0, cp, cn, cid, .pending, lmt, 0, none, ts2, none, none⟩] =
      [⟨0, cp, cn, cid, .pending, lmt, 0, none, ts2, none, some now2⟩] := by
    cases m with
    | zero => exact Or.inl rfl
    | succ k =>
        refine Or.inr ?_
        rw [Function.iterate_succ_apply]
        exact Function.iterate_fixed rfl k
  refine ⟨hM, hR, ?_, ?_⟩
  · intro j hj
    rw [hM] at hj
    cases List.mem_singleton.mp hj
    exact ⟨rfl, rfl⟩
  · intro j hj
    rcases hR with h | h <;> rw [h] at hj <;> cases List.mem_singleton.mp hj <;>
      exact ⟨rfl, rfl⟩

/-- C7: two `add` calls for the same key before the debounce elapses
produce exactly one `onBatch` invocation carrying both messages in
order — the first add's timer was cancelled by the second add, so its
expiry fires as a no-op, and the second timer's expiry flushes the
combined batch. -/
theorem C7_buffer_coalescing (k a b : String) :
    (MessageBuffer.fireTimer
        (MessageBuffer.add (MessageBuffer.add MessageBuffer.emptyState k a) k b)
        k 0).emitted = [] ∧
    (MessageBuffer.fireTimer (MessageBuffer.fireTimer
        (MessageBuffer.add (MessageBuffer.add MessageBuffer.emptyState k a) k b)
        k 0) k 1).emitted = [(k, [a, b])] ∧
    (MessageBuffer.fireTimer (MessageBuffer.fireTimer
        (MessageBuffer.add (MessageBuffer.add MessageBuffer.emptyState k a) k b)
        k 0) k 1).buffers = [] := by
  refine ⟨?_, ?_, ?_⟩ <;>
  simp [MessageBuffer.fireTimer, MessageBuffer.add, MessageBuffer.flush,
    MessageBuffer.emptyState, MessageBuffer.pushText, MessageBuffer.lookupBuffer,
    MessageBuffer.removeBuffer, MessageBuffer.removeTimer, MessageBuffer.timerArmed,
    MessageBuffer.getAdaptiveDebounce, MessageBuffer.BASE_DEBOUNCE_MS,
    MessageBuffer.MAX_DEBOUNCE_MS]

/-- C8: the adaptive debounce is monotone non-decreasing over the
counts that can reach it (`add` consults it only after inserting the
key, so the active count is at least 1), and the 1-active duration is
strictly below every 11-plus-active duration. -/
theorem C8_adaptive_debounce_monotone :
    (∀ m n : Nat, 1 ≤ m → m ≤ n →
        MessageBuffer.getAdaptiveDebounce m ≤ MessageBuffer.getAdaptiveDebounce n) ∧
    (∀ n : Nat, 11 ≤ n →
        MessageBuffer.getAdaptiveDebounce 1 < MessageBuffer.getAdaptiveDebounce n) := by
  constructor
  · intro m n h1 h2
    simp only [MessageBuffer.getAdaptiveDebounce, MessageBuffer.BASE_DEBOUNCE_MS,
      MessageBuffer.MAX_DEBOUNCE_MS]
    split_ifs <;> omega
  · intro n hn
    simp only [MessageBuffer.getAdaptiveDebounce, MessageBuffer.BASE_DEBOUNCE_MS,
      MessageBuffer.MAX_DEBOUNCE_MS]
    split_ifs <;> omega

/-- C8 (witness): the monotonicity theorem applied at 1 ≤ 4 and at 11
active conversations. -/
theorem C8_adaptive_debounce_witness :
    MessageBuffer.getAdaptiveDebounce 1 ≤ MessageBuffer.getAdaptiveDebounce 4 ∧
    MessageBuffer.getAdaptiveDebounce 1 < MessageBuffer.getAdaptiveDebounce 11 :=
  ⟨C8_adaptive_debounce_monotone.1 1 4 (by decide) (by decide),
   C8_adaptive_debounce_monotone.2 11 (by decide)⟩

/-- C9: with a transport set, `runCleanup` keeps exactly the records
whose TTL has not elapsed, invokes the transport's delete exactly once
for each elapsed record (in list order), and its result does not depend
on whether those delete invocations succeed or throw. -/
theorem C9_ephemeral_reconciliation (now : Int) (tr : EphemeralAd → Bool)
    (ads : List EphemeralAd) :
    (EphemeralAdsService.runCleanup now (some tr) ads).1 =
      ads.filter (fun ad => ! EphemeralAdsService.expired now ad) ∧
    (EphemeralAdsService.runCleanup now (some tr) ads).2 =
      ads.filter (fun ad => EphemeralAdsService.expired now ad) ∧
    ∀ tr' : EphemeralAd → Bool,
      EphemeralAdsService.runCleanup now (some tr) ads =
        EphemeralAdsService.runCleanup now (some tr') ads := by
  have key : ∀ (f : EphemeralAd → Bool) (l : List EphemeralAd),
      EphemeralAdsService.cleanupLoop now f l =
        (l.filter (fun ad => ! EphemeralAdsService.expired now ad),
         l.filter (fun ad => EphemeralAdsService.expired now ad)) := by
    intro f l
    induction l with
    | nil => rfl
    | cons ad rest ih =>
        simp only [EphemeralAdsService.cleanupLoop, ih, List.filter_cons]
        by_cases h : EphemeralAdsService.expired now ad <;> simp [h]
  refine ⟨?_, ?_, ?_⟩
  · simp only [EphemeralAdsService.runCleanup, key]
  · simp only [EphemeralAdsService.runCleanup, key]
  · intro tr'
    simp only [EphemeralAdsService.runCleanup, key]

/-- C4 (counterexample): with the constructor defaults and a legitimate
`Math.random()` sample of 9/10, the delay at attempt 6 is 64800 ms,
exceeding `maxDelayMs` (60000): the cap applies before the jitter is
added, so a positive jitter sample pushes the delay above `maxDelayMs`. -/
theorem C4_backoff_exceeds_max :
    0 ≤ (9 : ℚ)/10 ∧ (9 : ℚ)/10 < 1 ∧
    RateLimiter.defaultConfig.maxDelayMs <
      RateLimiter.calculateBackoffDelay RateLimiter.defaultConfig 6 (9/10) := by
  refine ⟨by norm_num, by norm_num, ?_⟩
  norm_num [RateLimiter.calculateBackoffDelay, RateLimiter.exponentialDelay,
    RateLimiter.defaultConfig, min_def, max_def]

/-- C4 (amended): for a configuration with `backoffMultiplier ≥ 1` and
non-negative `initialDelayMs`, `maxDelayMs` and `jitterFactor`, the
delay ignoring jitter (the sample 1/2 makes the jitter term zero) is
monotone non-decreasing in the attempt number, and for every jitter
sample in [0, 1) the delay is bounded by
`max (maxDelayMs * (1 + jitterFactor)) initialDelayMs` — the bare
`maxDelayMs` bound holds only for the pre-jitter value. -/
theorem C4_backoff_amended (c : RateLimiterConfig) (attempt : ℕ) (rand : ℚ)
    (hmult : 1 ≤ c.backoffMultiplier) (hinit : 0 ≤ c.initialDelayMs)
    (hmax : 0 ≤ c.maxDelayMs) (hjit : 0 ≤ c.jitterFactor)
    (hr0 : 0 ≤ rand) (hr1 : rand < 1) :
    RateLimiter.calculateBackoffDelay c attempt (1/2) ≤
      RateLimiter.calculateBackoffDelay c (attempt + 1) (1/2) ∧
    RateLimiter.calculateBackoffDelay c attempt rand ≤
      max (c.maxDelayMs * (1 + c.jitterFactor)) c.initialDelayMs := by
  have hmul0 : (0 : ℚ) ≤ c.backoffMultiplier := le_trans zero_le_one hmult
  have hE0 : 0 ≤ RateLimiter.exponentialDelay c attempt :=
    le_min (mul_nonneg hinit (pow_nonneg hmul0 attempt)) hmax
  have hEmax : RateLimiter.exponentialDelay c attempt ≤ c.maxDelayMs :=
    min_le_right _ _
  constructor
  · have hzero : ∀ a : ℕ, RateLimiter.calculateBackoffDelay c a (1/2) =
        max (RateLimiter.exponentialDelay c a) c.initialDelayMs := by
      intro a
      unfold RateLimiter.calculateBackoffDelay
      norm_num
    rw [hzero attempt, hzero (attempt + 1)]
    refine max_le_max ?_ le_rfl
    refine min_le_min ?_ le_rfl
    have := pow_le_pow_right₀ hmult (Nat.le_succ attempt)
    exact mul_le_mul_of_nonneg_left this hinit
  · have hjb : rand * 2 - 1 ≤ 1 := by linarith
    have hstep : RateLimiter.exponentialDelay c attempt * c.jitterFactor *
        (rand * 2 - 1) ≤ RateLimiter.exponentialDelay c attempt * c.jitterFactor := by
      have h1 : 0 ≤ RateLimiter.exponentialDelay c attempt * c.jitterFactor :=
        mul_nonneg hE0 hjit
      calc RateLimiter.exponentialDelay c attempt * c.jitterFactor * (rand * 2 - 1)
          ≤ RateLimiter.exponentialDelay c attempt * c.jitterFactor * 1 :=
            mul_le_mul_of_nonneg_left hjb h1
        _ = RateLimiter.exponentialDelay c attempt * c.jitterFactor := mul_one _
    have hkey : RateLimiter.exponentialDelay c attempt +
        RateLimiter.exponentialDelay c attempt * c.jitterFactor * (rand * 2 - 1) ≤
        c.maxDelayMs * (1 + c.jitterFactor) := by
      have h2 : RateLimiter.exponentialDelay c attempt * (1 + c.jitterFactor) ≤
          c.maxDelayMs * (1 + c.jitterFactor) :=
        mul_le_mul_of_nonneg_right hEmax (by linarith)
      nlinarith [hstep, h2]
    unfold RateLimiter.calculateBackoffDelay
    exact max_le_max hkey le_rfl

/-- C4 (witness): the amended theorem applied to the constructor
defaults at attempt 0 with jitter sample 0. -/
theorem C4_backoff_amended_witness :
    RateLimiter.calculateBackoffDelay RateLimiter.defaultConfig 0 (1/2) ≤
      RateLimiter.calculateBackoffDelay RateLimiter.defaultConfig 1 (1/2) ∧
    RateLimiter.calculateBackoffDelay RateLimiter.defaultConfig 0 0 ≤
      max (RateLimiter.defaultConfig.maxDelayMs *
            (1 + RateLimiter.defaultConfig.jitterFactor))
          RateLimiter.defaultConfig.initialDelayMs :=
  C4_backoff_amended RateLimiter.defaultConfig 0 0
    (by norm_num [RateLimiter.defaultConfig])
    (by norm_num [RateLimiter.defaultConfig])
    (by norm_num [RateLimiter.defaultConfig])
    (by norm_num [RateLimiter.defaultConfig])
    le_rfl (by norm_num)

/-- The durable leg of `getOrNull`, when it runs against an available
tier whose keyed select raises a relation-missing error, reports a miss
and marks the tier unavailable (this also holds when the probe run on
the way in already marked it unavailable). -/
theorem getOrNullDb_query_missing (st : CacheState) (env : DbEnv) (now : Int)
    (jid : String) (hdb : st.dbAvailable = true)
    (hq : env.query = QueryResult.errMissing) :
    (GroupMetadataCache.getOrNullDb st env now jid).1 = none ∧
    (GroupMetadataCache.getOrNullDb st env now jid).2.1.dbAvailable = false := by
  unfold GroupMetadataCache.getOrNullDb GroupMetadataCache.ensureTablesExist
  cases hti : st.tablesInitialized with
  | true => simp [hdb, hti, hq]
  | false => cases env.probe <;> simp [hdb, hti, hq]

/-- C6: a relation-missing condition on the probe marks the durable tier
unavailable (and the probe is never re-run); a relation-missing error
raised by the keyed query inside `getOrNull` likewise leaves the tier
marked unavailable, with a miss served to the caller; and once
`dbAvailable` is false, `getOrNull` answers purely from the in-memory
tier with zero durable-tier calls and an unchanged state, and
`setFromApi` performs zero durable-tier calls and leaves the tier marked
unavailable — the caller always receives a result rather than an
error. -/
theorem C6_cache_degrade_on_missing_relation :
    (∀ st : CacheState, st.tablesInitialized = false →
        (GroupMetadataCache.ensureTablesExist st .errMissing).1.dbAvailable = false ∧
        (GroupMetadataCache.ensureTablesExist st .errMissing).1.tablesInitialized = true) ∧
    (∀ (st : CacheState) (env : DbEnv) (now : Int) (jid : String),
        st.dbAvailable = true →
        GroupMetadataCache.memFresh st now jid = none →
        env.query = QueryResult.errMissing →
        (GroupMetadataCache.getOrNull st env now jid).1 = none ∧
        (GroupMetadataCache.getOrNull st env now jid).2.1.dbAvailable = false) ∧
    (∀ (st : CacheState) (env : DbEnv) (now : Int) (jid : String),
        st.dbAvailable = false →
        GroupMetadataCache.getOrNull st env now jid =
          (GroupMetadataCache.memFresh st now jid, st, 0)) ∧
    (∀ (st : CacheState) (env : DbEnv) (now : Int) (jid : String)
        (m : GroupMetadataCache.ApiMetadata),
        st.dbAvailable = false →
        (GroupMetadataCache.setFromApi st env now jid m).2.2 = 0 ∧
        (GroupMetadataCache.setFromApi st env now jid m).2.1.dbAvailable = false) := by
  refine ⟨?_, ?_, ?_, ?_⟩
  · intro st h
    simp [GroupMetadataCache.ensureTablesExist, h]
  · intro st env now jid hdb hm hq
    unfold GroupMetadataCache.getOrNull
    unfold GroupMetadataCache.memFresh at hm
    cases hle : GroupMetadataCache.lookupKey st.mem jid with
    | none =>
        simp only [hle]
        exact getOrNullDb_query_missing st env now jid hdb hq
    | some e =>
        rw [hle] at hm
        by_cases hts : now - e.timestamp < GroupMetadataCache.CACHE_TTL_MS
        · simp [hts] at hm
        · simp only [hle, if_neg hts]
          exact getOrNullDb_query_missing st env now jid hdb hq
  · intro st env now jid h
    unfold GroupMetadataCache.getOrNull GroupMetadataCache.getOrNullDb
      GroupMetadataCache.memFresh
    cases GroupMetadataCache.lookupKey st.mem jid with
    | none => simp [h]
    | some e =>
        by_cases hts : now - e.timestamp < GroupMetadataCache.CACHE_TTL_MS
        · simp [hts]
        · simp [hts, h]
  · intro st env now jid m h
    unfold GroupMetadataCache.setFromApi
    simp [h]

/-- C6 (witness): the degrade theorem applied to a concrete uninitialized
state, a concrete available state whose keyed query raises the
relation-missing error, a concrete unavailable state holding one fresh
in-memory entry, and a concrete environment whose durable tier would
answer. -/
theorem C6_cache_degrade_witness :
    ((GroupMetadataCache.ensureTablesExist
        ⟨false, true, [], 3600000⟩ .errMissing).1.dbAvailable = false ∧
     (GroupMetadataCache.ensureTablesExist
        ⟨false, true, [], 3600000⟩ .errMissing).1.tablesInitialized = true) ∧
    ((GroupMetadataCache.getOrNull
        ⟨true, true, [], 3600000⟩ ⟨.ok, .errMissing, .ok⟩ 10 "g").1 = none ∧
     (GroupMetadataCache.getOrNull
        ⟨true, true, [], 3600000⟩ ⟨.ok, .errMissing, .ok⟩ 10 "g").2.1.dbAvailable = false) ∧
    GroupMetadataCache.getOrNull
        ⟨true, false, [("g", ⟨⟨"g", "s", none, 5, 1, 0, true⟩, 0⟩)], 3600000⟩
        ⟨.ok, .found 0 ⟨"g", "s", none, 5, 1, 0, true⟩, .ok⟩ 10 "g" =
      (GroupMetadataCache.memFresh
        ⟨true, false, [("g", ⟨⟨"g", "s", none, 5, 1, 0, true⟩, 0⟩)], 3600000⟩ 10 "g",
       ⟨true, false, [("g", ⟨⟨"g", "s", none, 5, 1, 0, true⟩, 0⟩)], 3600000⟩, 0) ∧
    ((GroupMetadataCache.setFromApi
        ⟨true, false, [], 3600000⟩ ⟨.ok, .notFound, .ok⟩ 10 "g" ⟨"s", none, 5, 1⟩).2.2 = 0 ∧
     (GroupMetadataCache.setFromApi
        ⟨true, false, [], 3600000⟩ ⟨.ok, .notFound, .ok⟩ 10 "g" ⟨"s", none, 5, 1⟩).2.1.dbAvailable = false) :=
  ⟨C6_cache_degrade_on_missing_relation.1 ⟨false, true, [], 3600000⟩ rfl,
   C6_cache_degrade_on_missing_relation.2.1
     ⟨true, true, [], 3600000⟩ ⟨.ok, .errMissing, .ok⟩ 10 "g" rfl rfl rfl,
   C6_cache_degrade_on_missing_relation.2.2.1
     ⟨true, false, [("g", ⟨⟨"g", "s", none, 5, 1, 0, true⟩, 0⟩)], 3600000⟩
     ⟨.ok, .found 0 ⟨"g", "s", none, 5, 1, 0, true⟩, .ok⟩ 10 "g" rfl,
   C6_cache_degrade_on_missing_relation.2.2.2
     ⟨true, false, [], 3600000⟩ ⟨.ok, .notFound, .ok⟩ 10 "g" ⟨"s", none, 5, 1⟩ rfl⟩
